import Mathlib

/-!
Verification of the Word Music Game core (`src/WordMusicGame.ts` and its
utilities) against its natural-language specification.

The TypeScript component is embedded shallowly: the mutable fields of the
`WordMusicGame` Lit element become a `GameState` record, each event handler
becomes a pure function `GameState → GameState × List Effect`, and the
side effects performed on the remote session / audio graph / toast layer
are recorded in an `Effect` trace in the order the source performs them.
Audio-hardware timestamps and prompt weights are modelled as rationals.
Sources of nondeterminism in the original code (the outcome of
`ai.live.music.connect`, the shuffled word list, the randomly chosen
component color) are passed in as explicit parameters.
-/

/-- Playback lifecycle states, from `types.ts`. -/
inductive PlaybackState where
  | stopped
  | playing
  | loading
  | paused
deriving Repr, DecidableEq

/-- A guessed word rendered as a weighted musical influence
(`MusicComponentData` in `types.ts`). -/
structure MusicComponentData where
  promptId : String
  color : String
  text : String
  weight : ℚ
deriving Repr, DecidableEq

/-- The identity of each toast notification shown by the component; the
constructor stands for the literal message text in the source. -/
inductive ToastKind where
  | resetting
  | congratulations
  | skipped (word : String)
  | correct (word : String)
  | incorrect
  | gameOver
  | underrun
  | reconnecting
  | reconnectFailed
  | connectFailed
  | filtered (text : String)
  | playbackStoppedTryAgain
  | pushError
deriving Repr, DecidableEq

/-- Observable side effects of the handlers, in source order: calls on the
remote `LiveMusicSession`, audio-graph operations, toasts, and the
scheduling of decoded buffers (`scheduleBuffer start duration` stands for
`source.start(nextStartTime)` on a buffer of the given duration). -/
inductive Effect where
  | toast (kind : ToastKind)
  | connectAttempt
  | sessionPlay
  | sessionPause
  | sessionStop
  | sessionResetContext
  | setWeightedPrompts (prompts : List (String × ℚ))
  | setMusicGenConfig
  | invokeThrottledPush
  | gainRampDown
  | gainRampUp
  | replaceOutputNode
  | resumeAudioContext
  | scheduleBuffer (start : ℚ) (duration : ℚ)
  | setPrerollTimer
  | settingsReset
  | selectInput
  | animateInput
deriving Repr, DecidableEq

/-- The mutable fields of the `WordMusicGame` element.  `musicComponents`
is the insertion-ordered `Map<string, MusicComponentData>`, kept as an
association list; `filteredComponents` is the `Set<string>` of filtered
prompt ids; `guessInputValue` is the value of the `#guess-input` element;
`sessionExists` records whether `this.session` has been assigned;
`audioContextRunning` records whether `audioContext.state === 'running'`. -/
structure GameState where
  musicComponents : List (String × MusicComponentData)
  nextComponentId : Nat
  sessionExists : Bool
  nextStartTime : ℚ
  playbackState : PlaybackState
  filteredComponents : List String
  connectionError : Bool
  audioContextRunning : Bool
  availableWords : List String
  currentWordToGuess : String
  currentWordIndex : Int
  gameWon : Bool
  guessInputValue : String
deriving Repr, DecidableEq

/-- The fixed pre-roll, `this.bufferTime = 0.5`. -/
def bufferTime : ℚ := 1/2

/-- JavaScript `String.prototype.trim()`: drop whitespace at both ends. -/
def jsTrim (s : String) : String :=
  ⟨((s.data.dropWhile Char.isWhitespace).reverse.dropWhile Char.isWhitespace).reverse⟩

/-- JavaScript `String.prototype.toUpperCase()` on the character list. -/
def jsToUpper (s : String) : String := ⟨s.data.map Char.toUpper⟩

/-- `Map.set`: replace the entry in place when the key exists, append
otherwise (JavaScript `Map` keeps insertion order). -/
def mapSet (m : List (String × MusicComponentData)) (k : String)
    (v : MusicComponentData) : List (String × MusicComponentData) :=
  if m.any (fun kv => kv.1 = k) then
    m.map (fun kv => if kv.1 = k then (k, v) else kv)
  else
    m ++ [(k, v)]

/-- `Set.add`: append the element when absent, keep the set otherwise. -/
def setAdd (l : List String) (x : String) : List String :=
  if l.contains x then l else l ++ [x]

/-- `throttle` from `utils.ts`: a leading-edge throttle.  `throttleRun
delay lastCall calls` replays a sequence of invocations, each a pair of
its `Date.now()` timestamp and its argument, through the closure state
`lastCall`, returning the arguments of the invocations that were actually
dispatched to the wrapped function. -/
def throttleRun (delay : Nat) : Nat → List (Nat × α) → List α
  | _, [] => []
  | lastCall, (now, arg) :: rest =>
    if delay ≤ now - lastCall then
      arg :: throttleRun delay now rest
    else
      throttleRun delay lastCall rest

/-- The snapshot filter of `setSessionMusicComponents`: components whose
id is not content-filtered and whose weight exceeds 0.01, in map order. -/
def componentsToSend (s : GameState) : List MusicComponentData :=
  (s.musicComponents.map Prod.snd).filter
    (fun p => !(s.filteredComponents.contains p.promptId) && decide ((1:ℚ)/100 < p.weight))

/-- The `{text, weight}` pairs pushed via `session.setWeightedPrompts`. -/
def sessionSnapshot (s : GameState) : List (String × ℚ) :=
  (componentsToSend s).map (fun c => (c.text, c.weight))

/-- Body of the throttled `setSessionMusicComponents` push.  `pushOk`
resolves the `try`/`catch` around `session.setWeightedPrompts`. -/
def setSessionMusicComponentsBody (s : GameState) (pushOk : Bool) :
    GameState × List Effect :=
  if !s.sessionExists then (s, [])
  else if pushOk then (s, [Effect.setWeightedPrompts (sessionSnapshot s)])
  else
    let base := [Effect.setWeightedPrompts (sessionSnapshot s), Effect.toast ToastKind.pushError]
    if s.playbackState = PlaybackState.playing ∨ s.playbackState = PlaybackState.loading then
      let e1 := if s.sessionExists then [Effect.sessionPause] else []
      let e2 := if s.audioContextRunning then [Effect.gainRampDown] else []
      ({ s with playbackState := PlaybackState.paused, nextStartTime := 0 },
       base ++ e1 ++ e2 ++ [Effect.replaceOutputNode])
    else (s, base)

/-- `pauseAudio()`: pause the session when present, move to `paused`,
ramp the gain down when the context is running, reset the clock, and
replace the output node. -/
def pauseAudio (s : GameState) : GameState × List Effect :=
  let e1 := if s.sessionExists then [Effect.sessionPause] else []
  let e2 := if s.audioContextRunning then [Effect.gainRampDown] else []
  ({ s with playbackState := PlaybackState.paused, nextStartTime := 0 },
   e1 ++ e2 ++ [Effect.replaceOutputNode])

/-- `loadAudio()`: resume a suspended context, play the session when
present, move to `loading`, and ramp the gain up. -/
def loadAudio (s : GameState) : GameState × List Effect :=
  let e0 := if !s.audioContextRunning then [Effect.resumeAudioContext] else []
  let e1 := if s.sessionExists then [Effect.sessionPlay] else []
  ({ s with playbackState := PlaybackState.loading }, e0 ++ e1 ++ [Effect.gainRampUp])

/-- `stopAudioAndSession()`: stop the session when present, move to
`stopped`, ramp the gain down when running, reset the clock, and replace
the output node.  (No handler in the source ever calls this function.) -/
def stopAudioAndSession (s : GameState) : GameState × List Effect :=
  let e1 := if s.sessionExists then [Effect.sessionStop] else []
  let e2 := if s.audioContextRunning then [Effect.gainRampDown] else []
  ({ s with playbackState := PlaybackState.stopped, nextStartTime := 0 },
   e1 ++ e2 ++ [Effect.replaceOutputNode])

/-- The synchronous prologue of the audio-chunk branch of `onmessage`,
up to the `await decodeAudioData(...)` suspension point: returns `true`
exactly when the handler proceeds to the awaited decode.  `dataStr` is
`audioChunks[0].data` and `decodedLen` the length of `decode(dataStr)`. -/
def handleAudioChunkPre (s : GameState) (dataStr : String) (decodedLen : Nat) : Bool :=
  if s.playbackState = PlaybackState.paused ∨ s.playbackState = PlaybackState.stopped then
    false
  else if jsTrim dataStr = "" then false
  else if decodedLen = 0 then false
  else true

/-- The continuation of the audio-chunk branch after the awaited decode:
`duration` is `audioBuffer.duration` and `now` is
`audioContext.currentTime` at resumption.  Mirrors lines 326-348 of
`WordMusicGame.ts`: the zero-duration early return, the priming of
`nextStartTime`, the under-run resync, and the gapless schedule. -/
def handleAudioChunkPost (s : GameState) (duration now : ℚ) :
    GameState × List Effect :=
  if duration = 0 then (s, [])
  else
    let s1 := if s.nextStartTime = 0 then { s with nextStartTime := now + bufferTime } else s
    let e1 := if s.nextStartTime = 0 then [Effect.setPrerollTimer] else []
    if s1.nextStartTime < now then
      ({ s1 with playbackState := PlaybackState.loading, nextStartTime := 0 },
       e1 ++ [Effect.toast ToastKind.underrun])
    else
      ({ s1 with nextStartTime := s1.nextStartTime + duration },
       e1 ++ [Effect.scheduleBuffer s1.nextStartTime duration])

/-- The pre-roll `setTimeout` callback: flip `loading` to `playing`,
re-checking the state first. -/
def prerollTimerFire (s : GameState) : GameState :=
  if s.playbackState = PlaybackState.loading then
    { s with playbackState := PlaybackState.playing }
  else s

/-- The `filteredPrompt` branch of `onmessage`: find the first component
with the filtered text, add its id to the filtered set, and notify. -/
def handleFilteredPrompt (s : GameState) (text : String) : GameState × List Effect :=
  match (s.musicComponents.map Prod.snd).find? (fun p => p.text = text) with
  | some comp =>
      ({ s with filteredComponents := setAdd s.filteredComponents comp.promptId },
       [Effect.toast (ToastKind.filtered text)])
  | none => (s, [])

/-- `connectToSession()`, with its success resolved by `ok`: on success
the session is assigned and the error flag cleared; on failure the error
flag is set and the user notified (the session reference is untouched). -/
def connectToSession (s : GameState) (ok : Bool) : GameState × List Effect :=
  if ok then
    ({ s with sessionExists := true, connectionError := false }, [Effect.connectAttempt])
  else
    ({ s with connectionError := true },
     [Effect.connectAttempt, Effect.toast ToastKind.connectFailed])

/-- `fetchNextWord()`: advance the index; past the end, show the win. -/
def fetchNextWord (s : GameState) : GameState × List Effect :=
  let i := s.currentWordIndex + 1
  if i < (s.availableWords.length : Int) then
    ({ s with currentWordIndex := i,
              currentWordToGuess := s.availableWords.getD i.toNat "" }, [])
  else
    ({ s with currentWordIndex := i, currentWordToGuess := "YOU WON!", gameWon := true },
     [Effect.toast ToastKind.congratulations])

/-- `initializeGame()`, with the shuffled word order passed in as
`newWords`: reset all game state, fetch the first word, and push the (now
empty) component set when a session exists. -/
def initGame (s : GameState) (newWords : List String) : GameState × List Effect :=
  let s1 := { s with availableWords := newWords, musicComponents := [],
                     nextComponentId := 0, currentWordIndex := -1, gameWon := false,
                     filteredComponents := [] }
  let (s2, e2) := fetchNextWord s1
  if s2.sessionExists then (s2, e2 ++ [Effect.invokeThrottledPush]) else (s2, e2)

/-- `handlePlayPause()`, with the outcome of a possible reconnect passed
in as `connectOk`. -/
def handlePlayPause (s : GameState) (connectOk : Bool) : GameState × List Effect :=
  if s.playbackState = PlaybackState.playing then
    pauseAudio s
  else if s.playbackState = PlaybackState.paused ∨ s.playbackState = PlaybackState.stopped then
    if s.connectionError || !s.sessionExists then
      let (s1, e1) := connectToSession s connectOk
      if !s1.connectionError && s1.sessionExists then
        let (s2, e2) := loadAudio s1
        (s2, [Effect.toast ToastKind.reconnecting] ++ e1 ++ [Effect.invokeThrottledPush] ++ e2)
      else
        ({ s1 with playbackState := PlaybackState.stopped },
         [Effect.toast ToastKind.reconnecting] ++ e1 ++ [Effect.toast ToastKind.reconnectFailed])
    else
      loadAudio s
  else
    let (s1, e1) := pauseAudio s
    (s1, e1 ++ [Effect.toast ToastKind.playbackStoppedTryAgain])

/-- `handleReset()`: toast, reconnect when errored or sessionless, pause
the audio, reinitialize the game, reset the settings form, and reset the
session context and generation config when a session exists. -/
def handleReset (s : GameState) (connectOk : Bool) (newWords : List String) :
    GameState × List Effect :=
  let e0 := [Effect.toast ToastKind.resetting]
  let (s1, e1) :=
    if s.connectionError || !s.sessionExists then connectToSession s connectOk else (s, [])
  let (s2, e2) := pauseAudio s1
  let (s3, e3) := initGame s2 newWords
  let e4 := [Effect.settingsReset]
  let e5 := if s3.sessionExists then [Effect.sessionResetContext, Effect.setMusicGenConfig] else []
  (s3, e0 ++ e1 ++ e2 ++ e3 ++ e4 ++ e5)

/-- `handleGuessSubmit()`, with the randomly chosen color of a new
component passed in as `newColor`.  The guess is the input value, trimmed
and uppercased; empty guesses return before any effect and before the
input is cleared. -/
def handleGuessSubmit (s : GameState) (newColor : String) : GameState × List Effect :=
  if s.gameWon then (s, [Effect.toast ToastKind.gameOver])
  else
    let guess := jsToUpper (jsTrim s.guessInputValue)
    if guess = "" then (s, [])
    else if guess = s.currentWordToGuess then
      let newComponentId := "component-" ++ toString s.nextComponentId
      let newComponent : MusicComponentData :=
        { promptId := newComponentId, text := s.currentWordToGuess,
          weight := 1/2, color := newColor }
      let s1 := { s with musicComponents := mapSet s.musicComponents newComponentId newComponent,
                         nextComponentId := s.nextComponentId + 1 }
      let (s2, e2) := fetchNextWord s1
      ({ s2 with guessInputValue := "" },
       [Effect.toast (ToastKind.correct s.currentWordToGuess), Effect.invokeThrottledPush] ++ e2)
    else
      ({ s with guessInputValue := "" },
       [Effect.toast ToastKind.incorrect, Effect.selectInput, Effect.animateInput])

/-- A concrete reachable state used by the closed counterexamples and
witnesses: one word left, a live session, running audio, mid-`loading`. -/
def exampleState : GameState :=
  { musicComponents := []
    nextComponentId := 0
    sessionExists := true
    nextStartTime := 0
    playbackState := PlaybackState.loading
    filteredComponents := []
    connectionError := false
    audioContextRunning := true
    availableWords := ["MUSIC"]
    currentWordToGuess := "MUSIC"
    currentWordIndex := 0
    gameWon := false
    guessInputValue := "" }

/-! ## Helper lemmas -/

/-- `Map.set` with a key absent from the map appends the new entry. -/
theorem mapSet_fresh (m : List (String × MusicComponentData)) (k : String)
    (v : MusicComponentData) (h : ∀ kv ∈ m, kv.1 ≠ k) :
    mapSet m k v = m ++ [(k, v)] := by
  unfold mapSet
  rw [if_neg]
  simp only [List.any_eq_true, decide_eq_true_eq, not_exists]
  intro kv hkv
  exact h kv hkv.1 hkv.2

/-- `Set.add` makes the added element a member. -/
theorem setAdd_contains_self (l : List String) (x : String) :
    (setAdd l x).contains x = true := by
  unfold setAdd
  split
  · assumption
  · simp

/-- Membership form of `setAdd_contains_self`. -/
theorem setAdd_mem_self (l : List String) (x : String) : x ∈ setAdd l x := by
  have h := setAdd_contains_self l x
  simpa using h

/-- A state after the gameWon flag is set rejects every submission with
the game-over toast and changes nothing. -/
theorem handleGuessSubmit_gameOver (s : GameState) (c : String) (h : s.gameWon = true) :
    handleGuessSubmit s c = (s, [Effect.toast ToastKind.gameOver]) := by
  simp [handleGuessSubmit, h]

/-! ## Claim C1: throttled push within one 200ms window -/

/-- Claim C1 counterexample: two invocations of the throttled push inside
one 200ms window (timestamps 1000 and 1100) dispatch exactly one
underlying call, but that call carries the argument of the FIRST
invocation; the second invocation is dropped outright, never flushed, so
the dispatched trace is not the second argument as the claim states. -/
theorem throttle_second_call_flushed_cex :
    throttleRun 200 0 [(1000, 10), (1100, 20)] = [10] ∧
    throttleRun 200 0 [(1000, 10), (1100, 20)] ≠ [20] := by
  constructor
  · decide
  · decide

/-- Claim C1 (amended): the `throttle` of `utils.ts` is leading-edge.
For two invocations within one 200ms window, exactly one underlying call
is dispatched, and it carries the argument (hence the state snapshot) of
the first invocation; the second invocation is dropped, not queued, and
nothing is flushed when the window reopens. -/
theorem throttle_window_dispatches_first_only (t₁ t₂ a b : Nat)
    (h₁ : 200 ≤ t₁) (h₂ : t₁ ≤ t₂) (h₃ : t₂ - t₁ < 200) :
    throttleRun 200 0 [(t₁, a), (t₂, b)] = [a] := by
  have hb : ¬ 200 ≤ t₂ - t₁ := by omega
  simp [throttleRun, Nat.sub_zero, h₁, hb]

/-- Witness for `throttle_window_dispatches_first_only` at the concrete
timestamps 1000 and 1100. -/
theorem throttle_window_dispatches_first_only_witness :
    throttleRun 200 0 [(1000, 1), (1100, 2)] = [1] :=
  throttle_window_dispatches_first_only 1000 1100 1 2 (by decide) (by decide) (by decide)

/-! ## Claim C4: under-run handling -/

/-- Claim C4: whenever the audio-chunk continuation runs with a primed
clock (`nextStartTime ≠ 0`) that has fallen strictly behind the hardware
clock, it resets `nextStartTime` to 0, forces the state to `loading`,
schedules nothing, and surfaces the recoverable under-run toast.  The
handler is a total function, so it cannot throw. -/
theorem underrun_resync (s : GameState) (duration now : ℚ)
    (hne : s.nextStartTime ≠ 0) (hlt : s.nextStartTime < now) (hd : duration ≠ 0) :
    (handleAudioChunkPost s duration now).1.nextStartTime = 0 ∧
    (handleAudioChunkPost s duration now).1.playbackState = PlaybackState.loading ∧
    (∀ t d, Effect.scheduleBuffer t d ∉ (handleAudioChunkPost s duration now).2) ∧
    Effect.toast ToastKind.underrun ∈ (handleAudioChunkPost s duration now).2 := by
  simp only [handleAudioChunkPost, if_neg hd, if_neg hne]
  rw [if_pos hlt]
  simp

/-- Witness for `underrun_resync`: a primed clock at 1 with the hardware
clock at 2. -/
theorem underrun_resync_witness :
    (handleAudioChunkPost { exampleState with nextStartTime := 1 } 1 2).1.nextStartTime = 0 ∧
    (handleAudioChunkPost { exampleState with nextStartTime := 1 } 1 2).1.playbackState =
      PlaybackState.loading ∧
    Effect.toast ToastKind.underrun ∈
      (handleAudioChunkPost { exampleState with nextStartTime := 1 } 1 2).2 := by
  have h := underrun_resync { exampleState with nextStartTime := 1 } 1 2
    (by norm_num) (by norm_num) (by norm_num)
  exact ⟨h.1, h.2.1, h.2.2.2⟩

/-! ## Claim C5: gapless scheduling -/

/-- Claim C5: when a non-empty decoded buffer is actually scheduled (no
under-run), its start time is the prior `nextStartTime` — or
`now + bufferTime` on the priming call — and `nextStartTime` advances by
exactly the buffer duration, so consecutive buffers are back-to-back
with no gap and no overlap. -/
theorem gapless_schedule (s : GameState) (duration now : ℚ)
    (hd : duration ≠ 0)
    (h : s.nextStartTime = 0 ∨ now ≤ s.nextStartTime) :
    Effect.scheduleBuffer (if s.nextStartTime = 0 then now + bufferTime else s.nextStartTime)
        duration ∈ (handleAudioChunkPost s duration now).2 ∧
    (handleAudioChunkPost s duration now).1.nextStartTime =
      (if s.nextStartTime = 0 then now + bufferTime else s.nextStartTime) + duration := by
  by_cases h0 : s.nextStartTime = 0
  · have hnlt : ¬ (now + bufferTime < now) := by
      simp only [bufferTime]
      intro hc
      linarith
    simp only [handleAudioChunkPost, if_neg hd, if_pos h0]
    rw [if_neg hnlt]
    simp
  · have hle : now ≤ s.nextStartTime := h.resolve_left h0
    have hnlt : ¬ (s.nextStartTime < now) := not_lt.mpr hle
    simp only [handleAudioChunkPost, if_neg hd, if_neg h0]
    rw [if_neg hnlt]
    simp

/-- Witness for `gapless_schedule`: the priming call with hardware clock
at 10 and a buffer of duration 2 schedules at `10 + bufferTime` and
leaves `nextStartTime = (10 + bufferTime) + 2`. -/
theorem gapless_schedule_witness :
    Effect.scheduleBuffer (10 + bufferTime) 2 ∈ (handleAudioChunkPost exampleState 2 10).2 ∧
    (handleAudioChunkPost exampleState 2 10).1.nextStartTime = (10 + bufferTime) + 2 := by
  have h := gapless_schedule exampleState 2 10 (by norm_num) (Or.inl rfl)
  simpa [exampleState] using h

/-! ## Claim C2: user stop/reset -/

/-- Claim C2 counterexample: a reset issued while playing (live session,
no connection error) leaves the system in `paused`, not `stopped`; the
effect trace contains `session.pause()` and never `session.stop()`. -/
theorem reset_goes_to_paused_cex :
    (handleReset { exampleState with playbackState := PlaybackState.playing }
        true ["BEAT"]).1.playbackState = PlaybackState.paused ∧
    PlaybackState.paused ≠ PlaybackState.stopped ∧
    Effect.sessionStop ∉
      (handleReset { exampleState with playbackState := PlaybackState.playing } true ["BEAT"]).2 ∧
    Effect.sessionPause ∈
      (handleReset { exampleState with playbackState := PlaybackState.playing } true ["BEAT"]).2 := by
  refine ⟨by decide, by decide, by decide, by decide⟩

/-- Claim C2 (amended): for every user reset with a live session and no
prior connection error, from any playback state, the system transitions
to `paused` (not `stopped`), issues `session.pause()` (never
`session.stop()`), resets the clock to 0, and ramps the gain down. -/
theorem reset_transitions_to_paused (s : GameState) (ok : Bool) (words : List String)
    (hs : s.sessionExists = true) (he : s.connectionError = false)
    (ha : s.audioContextRunning = true) :
    (handleReset s ok words).1.playbackState = PlaybackState.paused ∧
    (handleReset s ok words).1.nextStartTime = 0 ∧
    Effect.sessionPause ∈ (handleReset s ok words).2 ∧
    Effect.gainRampDown ∈ (handleReset s ok words).2 ∧
    Effect.sessionStop ∉ (handleReset s ok words).2 := by
  simp only [handleReset, pauseAudio, initGame, fetchNextWord, he, hs, ha]
  by_cases hw : (0 : Int) < (words.length : Int)
  · simp [hw, hs, ha]
  · simp [hw, hs, ha]

/-- Witness for `reset_transitions_to_paused` at a concrete playing
state. -/
theorem reset_transitions_to_paused_witness :
    (handleReset { exampleState with playbackState := PlaybackState.playing }
        true ["NOTE"]).1.playbackState = PlaybackState.paused ∧
    Effect.sessionPause ∈
      (handleReset { exampleState with playbackState := PlaybackState.playing } true ["NOTE"]).2 := by
  have h := reset_transitions_to_paused
    { exampleState with playbackState := PlaybackState.playing } true ["NOTE"]
    rfl rfl rfl
  exact ⟨h.1, h.2.2.1⟩

/-! ## Claim C3: no decode or schedule while paused/stopped -/

/-- Claim C3 counterexample: a chunk whose decode is in flight when a
pause lands is still scheduled by the continuation.  From `loading`, the
chunk passes the pre-decode guard; `pauseAudio` then moves the state to
`paused` (and zeroes the clock); yet the post-decode continuation, run
in the paused state, re-primes the clock and emits a schedule — it never
re-checks `playbackState`. -/
theorem inflight_chunk_scheduled_after_pause_cex :
    handleAudioChunkPre exampleState "abc" 4 = true ∧
    (pauseAudio exampleState).1.playbackState = PlaybackState.paused ∧
    Effect.scheduleBuffer (10 + bufferTime) 1 ∈
      (handleAudioChunkPost (pauseAudio exampleState).1 1 10).2 := by
  refine ⟨by decide, by decide, ?_⟩
  have hnlt : ¬ ((10 : ℚ) + bufferTime < 10) := by
    simp only [bufferTime]
    norm_num
  simp only [handleAudioChunkPost, pauseAudio, exampleState]
  norm_num [hnlt]

/-- Claim C3 (amended): while `paused` or `stopped`, inbound chunks are
dropped before the decode is started; but the continuation after the
awaited decode does NOT re-check the state — for any paused state with
the clock reset (as `pauseAudio` leaves it), the continuation re-primes
the clock and schedules the decoded buffer anyway. -/
theorem audio_chunk_guard_before_decode_only :
    (∀ (s : GameState) (d : String) (n : Nat),
      s.playbackState = PlaybackState.paused ∨ s.playbackState = PlaybackState.stopped →
      handleAudioChunkPre s d n = false) ∧
    (∀ (s : GameState) (duration now : ℚ),
      s.playbackState = PlaybackState.paused → s.nextStartTime = 0 → duration ≠ 0 →
      Effect.scheduleBuffer (now + bufferTime) duration ∈
        (handleAudioChunkPost s duration now).2) := by
  constructor
  · intro s d n h
    simp [handleAudioChunkPre, h]
  · intro s duration now hp h0 hd
    have hnlt : ¬ (now + bufferTime < now) := by
      simp only [bufferTime]
      intro hc
      linarith
    simp only [handleAudioChunkPost, if_neg hd, if_pos h0]
    rw [if_neg hnlt]
    simp

/-- Witness for `audio_chunk_guard_before_decode_only`: the guard drops a
chunk in a concrete paused state, and the continuation schedules a
buffer decoded before that same pause. -/
theorem audio_chunk_guard_before_decode_only_witness :
    handleAudioChunkPre (pauseAudio exampleState).1 "abc" 4 = false ∧
    Effect.scheduleBuffer ((20 : ℚ) + bufferTime) 3 ∈
      (handleAudioChunkPost (pauseAudio exampleState).1 3 20).2 := by
  constructor
  · exact audio_chunk_guard_before_decode_only.1 (pauseAudio exampleState).1 "abc" 4
      (Or.inl rfl)
  · exact audio_chunk_guard_before_decode_only.2 (pauseAudio exampleState).1 3 20
      rfl rfl (by norm_num)

/-! ## Claim C6: snapshot contents and content filtering -/

/-- Claim C6: the snapshot pushed to the session consists of exactly the
`{text, weight}` pairs of the components whose weight exceeds 0.01 and
whose id is not filtered; when a `filteredPrompt` message names the text
of an existing component, that component's id enters the filtered set,
the component map (and hence its weight) is untouched, and no component
with that id appears in any snapshot taken while the id is filtered. -/
theorem filtered_component_excluded (s : GameState) (text : String) :
    (∀ p : MusicComponentData, p ∈ componentsToSend s ↔
      (p ∈ s.musicComponents.map Prod.snd ∧
       s.filteredComponents.contains p.promptId = false ∧ (1:ℚ)/100 < p.weight)) ∧
    sessionSnapshot s = (componentsToSend s).map (fun c => (c.text, c.weight)) ∧
    (∀ comp : MusicComponentData,
      (s.musicComponents.map Prod.snd).find? (fun p => p.text = text) = some comp →
      (handleFilteredPrompt s text).1.musicComponents = s.musicComponents ∧
      (handleFilteredPrompt s text).1.filteredComponents.contains comp.promptId = true ∧
      ∀ p ∈ componentsToSend (handleFilteredPrompt s text).1, p.promptId ≠ comp.promptId) := by
  refine ⟨?_, rfl, ?_⟩
  · intro p
    simp only [componentsToSend, List.mem_filter, Bool.and_eq_true, Bool.not_eq_true',
      decide_eq_true_eq]
  · intro comp hfind
    refine ⟨?_, ?_, ?_⟩
    · simp [handleFilteredPrompt, hfind]
    · simp [handleFilteredPrompt, hfind, setAdd_mem_self]
    · intro p hp heq
      simp only [handleFilteredPrompt, hfind, componentsToSend, List.mem_filter,
        Bool.and_eq_true, Bool.not_eq_true', decide_eq_true_eq] at hp
      have hc := hp.2.1
      rw [heq] at hc
      rw [setAdd_contains_self] at hc
      exact Bool.noConfusion hc

/-- A component and a state holding it, for the C6 witness. -/
def musicComp : MusicComponentData :=
  { promptId := "component-0", color := "#9900ff", text := "MUSIC", weight := 1/2 }

/-- Witness for `filtered_component_excluded`: a server filter notice for
the existing "MUSIC" component marks its id filtered and leaves the map
unchanged. -/
theorem filtered_component_excluded_witness :
    (handleFilteredPrompt { exampleState with musicComponents := [("component-0", musicComp)] }
        "MUSIC").1.musicComponents = [("component-0", musicComp)] ∧
    (handleFilteredPrompt { exampleState with musicComponents := [("component-0", musicComp)] }
        "MUSIC").1.filteredComponents.contains "component-0" = true := by
  have h := (filtered_component_excluded
    { exampleState with musicComponents := [("component-0", musicComp)] } "MUSIC").2.2
    musicComp rfl
  exact ⟨h.1, h.2.1⟩

/-! ## Claim C7: guess submission -/

/-- Claim C7: while the game is not won, a submission whose normalized
input matches `currentWordToGuess` appends a fresh component with that
text and weight 0.5, increments the id counter, triggers the throttled
push, and advances the word; a non-empty non-matching submission leaves
the components and the current word untouched and fires the incorrect
toast. -/
theorem guess_submit_correct_and_incorrect (s : GameState) (c : String)
    (hw : s.gameWon = false) :
    ((jsToUpper (jsTrim s.guessInputValue) = s.currentWordToGuess →
      s.currentWordToGuess ≠ "" →
      (∀ kv ∈ s.musicComponents, kv.1 ≠ "component-" ++ toString s.nextComponentId) →
      (handleGuessSubmit s c).1.musicComponents =
        s.musicComponents ++ [("component-" ++ toString s.nextComponentId,
          { promptId := "component-" ++ toString s.nextComponentId,
            color := c, text := s.currentWordToGuess, weight := 1/2 })] ∧
      (handleGuessSubmit s c).1.nextComponentId = s.nextComponentId + 1 ∧
      Effect.invokeThrottledPush ∈ (handleGuessSubmit s c).2 ∧
      (handleGuessSubmit s c).1.currentWordIndex = s.currentWordIndex + 1 ∧
      (s.currentWordIndex + 1 < (s.availableWords.length : Int) →
        (handleGuessSubmit s c).1.currentWordToGuess =
          s.availableWords.getD (s.currentWordIndex + 1).toNat "")) ∧
     (jsToUpper (jsTrim s.guessInputValue) ≠ "" →
      jsToUpper (jsTrim s.guessInputValue) ≠ s.currentWordToGuess →
      (handleGuessSubmit s c).1.musicComponents = s.musicComponents ∧
      (handleGuessSubmit s c).1.currentWordToGuess = s.currentWordToGuess ∧
      (handleGuessSubmit s c).1.currentWordIndex = s.currentWordIndex ∧
      Effect.toast ToastKind.incorrect ∈ (handleGuessSubmit s c).2)) := by
  constructor
  · intro h1 h2 h3
    have hmap := mapSet_fresh s.musicComponents ("component-" ++ toString s.nextComponentId)
      { promptId := "component-" ++ toString s.nextComponentId,
        color := c, text := s.currentWordToGuess, weight := 1/2 } h3
    simp only [one_div] at hmap
    by_cases hlt : s.currentWordIndex + 1 < (s.availableWords.length : Int)
    · simp [handleGuessSubmit, fetchNextWord, hw, h1, h2, hmap, hlt]
    · simp [handleGuessSubmit, fetchNextWord, hw, h1, h2, hmap, hlt]
  · intro hne hdiff
    simp [handleGuessSubmit, hw, hne, hdiff]

/-- Witness for `guess_submit_correct_and_incorrect`: in the example
state (word "MUSIC"), guessing " music " adds a component and triggers
the push; guessing "JAZZ" fires the incorrect toast. -/
theorem guess_submit_correct_and_incorrect_witness :
    Effect.invokeThrottledPush ∈
      (handleGuessSubmit { exampleState with guessInputValue := " music " } "#fff").2 ∧
    (handleGuessSubmit { exampleState with guessInputValue := " music " } "#fff").1.nextComponentId
      = 1 ∧
    Effect.toast ToastKind.incorrect ∈
      (handleGuessSubmit { exampleState with guessInputValue := "JAZZ" } "#fff").2 := by
  have h1 := (guess_submit_correct_and_incorrect
    { exampleState with guessInputValue := " music " } "#fff" rfl).1
    (by decide) (by decide) (by simp [exampleState])
  have h2 := (guess_submit_correct_and_incorrect
    { exampleState with guessInputValue := "JAZZ" } "#fff" rfl).2
    (by decide) (by decide)
  exact ⟨h1.2.2.1, h1.2.1, h2.2.2.2⟩

/-! ## Claim C8: play while the connection errored -/

/-- Claim C8: pressing play from `paused`/`stopped` while
`connectionError` holds re-attempts `connect()` before any move to
`loading` (the `connectAttempt` precedes the `sessionPlay`/`gainRampUp`
of `loadAudio` in the trace); on reconnect failure the state ends
`stopped` with the failure toast and `loadAudio` never runs, and only on
success does the state move to `loading`. -/
theorem play_retry_connect (s : GameState) (ok : Bool)
    (he : s.connectionError = true)
    (hp : s.playbackState = PlaybackState.paused ∨ s.playbackState = PlaybackState.stopped)
    (ha : s.audioContextRunning = true) :
    (ok = true → (handlePlayPause s ok).1.playbackState = PlaybackState.loading ∧
      (handlePlayPause s ok).2 = [Effect.toast ToastKind.reconnecting, Effect.connectAttempt,
        Effect.invokeThrottledPush, Effect.sessionPlay, Effect.gainRampUp]) ∧
    (ok = false → (handlePlayPause s ok).1.playbackState = PlaybackState.stopped ∧
      Effect.toast ToastKind.reconnectFailed ∈ (handlePlayPause s ok).2 ∧
      Effect.sessionPlay ∉ (handlePlayPause s ok).2 ∧
      Effect.gainRampUp ∉ (handlePlayPause s ok).2) := by
  have hnp : s.playbackState ≠ PlaybackState.playing := by
    rcases hp with h | h <;> simp [h]
  constructor
  · intro hok
    subst hok
    simp [handlePlayPause, connectToSession, loadAudio, hnp, hp, he, ha]
  · intro hok
    subst hok
    simp [handlePlayPause, connectToSession, loadAudio, hnp, hp, he, ha]

/-- The example state, paused with a pending connection error. -/
def erroredPausedState : GameState :=
  { exampleState with connectionError := true, playbackState := PlaybackState.paused }

/-- Witness for `play_retry_connect` from a concrete paused, errored
state, for both reconnect outcomes. -/
theorem play_retry_connect_witness :
    (handlePlayPause erroredPausedState true).1.playbackState = PlaybackState.loading ∧
    (handlePlayPause erroredPausedState false).1.playbackState = PlaybackState.stopped := by
  have h₁ := play_retry_connect erroredPausedState true rfl (Or.inl rfl) rfl
  have h₂ := play_retry_connect erroredPausedState false rfl (Or.inl rfl) rfl
  exact ⟨(h₁.1 rfl).1, (h₂.2 rfl).1⟩

/-! ## Claim C9: end of the word list -/

/-- Claim C9 counterexample: with a single available word, guessing it
sets `gameWon` and moves `currentWordIndex` to 1, which EQUALS the
number of available words (1) — it does not exceed it as the claim
states. -/
theorem last_word_index_equals_count_cex :
    (handleGuessSubmit { exampleState with guessInputValue := "MUSIC" } "#fff").1.gameWon = true ∧
    (handleGuessSubmit { exampleState with guessInputValue := "MUSIC" } "#fff").1.currentWordIndex
      = 1 ∧
    ((handleGuessSubmit { exampleState with guessInputValue := "MUSIC" }
        "#fff").1.availableWords.length : Int) = 1 ∧
    ¬ (((handleGuessSubmit { exampleState with guessInputValue := "MUSIC" }
        "#fff").1.availableWords.length : Int) <
       (handleGuessSubmit { exampleState with guessInputValue := "MUSIC" }
        "#fff").1.currentWordIndex) := by
  refine ⟨by decide, by decide, by decide, by decide⟩

/-- Claim C9 (amended): after the last remaining word is guessed,
`currentWordIndex` equals the number of available words (one past the
last valid index), `gameWon` is set, and every further submission is
rejected unchanged with the game-over toast. -/
theorem game_won_after_last_word (s : GameState) (c v : String)
    (hw : s.gameWon = false)
    (hg : jsToUpper (jsTrim s.guessInputValue) = s.currentWordToGuess)
    (hne : s.currentWordToGuess ≠ "")
    (hlast : s.currentWordIndex + 1 = (s.availableWords.length : Int)) :
    (handleGuessSubmit s c).1.gameWon = true ∧
    (handleGuessSubmit s c).1.currentWordIndex = (s.availableWords.length : Int) ∧
    handleGuessSubmit { (handleGuessSubmit s c).1 with guessInputValue := v } c =
      ({ (handleGuessSubmit s c).1 with guessInputValue := v },
       [Effect.toast ToastKind.gameOver]) := by
  have hnlt : ¬ (s.currentWordIndex + 1 < (s.availableWords.length : Int)) := by omega
  have hwon : (handleGuessSubmit s c).1.gameWon = true := by
    simp [handleGuessSubmit, fetchNextWord, hw, hg, hne, hnlt]
  refine ⟨hwon, ?_, ?_⟩
  · simp [handleGuessSubmit, fetchNextWord, hw, hg, hne, hnlt, hlast]
  · exact handleGuessSubmit_gameOver { (handleGuessSubmit s c).1 with guessInputValue := v } c hwon

/-- The example state right after its single word "MUSIC" was guessed. -/
def wonExampleState : GameState :=
  (handleGuessSubmit { exampleState with guessInputValue := "MUSIC" } "#aaa").1

/-- Witness for `game_won_after_last_word` in the one-word example
state. -/
theorem game_won_after_last_word_witness :
    wonExampleState.gameWon = true ∧
    handleGuessSubmit { wonExampleState with guessInputValue := "NOTE" } "#aaa" =
      ({ wonExampleState with guessInputValue := "NOTE" },
       [Effect.toast ToastKind.gameOver]) := by
  have h := game_won_after_last_word { exampleState with guessInputValue := "MUSIC" }
    "#aaa" "NOTE" rfl (by decide) (by decide) (by decide)
  exact ⟨h.1, h.2.2⟩

/-! ## Claim C10: input normalization and the empty guess -/

/-- Claim C10: the guess comparison sees only the trimmed, uppercased
input — two raw inputs with the same normalization produce identical
results — a component is created exactly when the normalized input
equals `currentWordToGuess`, and a submission that is empty after
trimming is a complete no-op: same state (input value kept), no
effects. -/
theorem guess_normalized_and_empty_noop (s : GameState) (v₁ v₂ c : String)
    (hw : s.gameWon = false) :
    (jsTrim s.guessInputValue = "" → handleGuessSubmit s c = (s, [])) ∧
    (jsToUpper (jsTrim v₁) = jsToUpper (jsTrim v₂) → jsToUpper (jsTrim v₁) ≠ "" →
      handleGuessSubmit { s with guessInputValue := v₁ } c =
        handleGuessSubmit { s with guessInputValue := v₂ } c) ∧
    (jsToUpper (jsTrim s.guessInputValue) ≠ "" →
      ((handleGuessSubmit s c).1.nextComponentId = s.nextComponentId + 1 ↔
        jsToUpper (jsTrim s.guessInputValue) = s.currentWordToGuess)) := by
  refine ⟨?_, ?_, ?_⟩
  · intro htrim
    have h : jsToUpper (jsTrim s.guessInputValue) = "" := by rw [htrim]; rfl
    simp [handleGuessSubmit, hw, h]
  · intro h hne
    have hne₂ : jsToUpper (jsTrim v₂) ≠ "" := h ▸ hne
    obtain ⟨m, n, se, ns, ps, f, ce, ar, aw, cw, ci, gw, g⟩ := s
    simp only at hw
    by_cases hcw : jsToUpper (jsTrim v₂) = cw
    · have hcwne : cw ≠ "" := hcw ▸ hne₂
      by_cases hlt : ci + 1 < (aw.length : Int) <;>
        simp [handleGuessSubmit, fetchNextWord, hw, h, hne₂, hcw, hcwne, hlt]
    · simp [handleGuessSubmit, hw, h, hne₂, hcw]
  · intro hne
    obtain ⟨m, n, se, ns, ps, f, ce, ar, aw, cw, ci, gw, g⟩ := s
    simp only at hw hne
    by_cases hcw : jsToUpper (jsTrim g) = cw
    · have hcwne : cw ≠ "" := hcw ▸ hne
      by_cases hlt : ci + 1 < (aw.length : Int) <;>
        simp [handleGuessSubmit, fetchNextWord, hw, hne, hcw, hcwne, hlt]
    · simp [handleGuessSubmit, hw, hne, hcw]

/-- Witness for `guess_normalized_and_empty_noop`: an all-blank guess is
a no-op, and " music " and "MUSIC" produce identical results. -/
theorem guess_normalized_and_empty_noop_witness :
    handleGuessSubmit { exampleState with guessInputValue := "   " } "#fff" =
      ({ exampleState with guessInputValue := "   " }, []) ∧
    handleGuessSubmit { exampleState with guessInputValue := " music " } "#fff" =
      handleGuessSubmit { exampleState with guessInputValue := "MUSIC" } "#fff" := by
  have h := guess_normalized_and_empty_noop
    { exampleState with guessInputValue := "   " } " music " "MUSIC" "#fff" rfl
  exact ⟨h.1 (by decide), h.2.1 (by decide) (by decide)⟩

